import Mathlib

/-!
Verification of `gemini_mcp` (tarpediem/geminigenerator).

Shallow embedding of the pure/observable behaviour of the Python sources:

* `src/gemini_mcp/utils.py`        — slug, filename and path helpers, validators
* `src/gemini_mcp/gemini_tools.py` — retry wrapper, generation / edit operations
* `src/gemini_mcp/imagemagick_tools.py` — raster operations

Modelling conventions.

* Python strings used as free text that passes through `unicodedata` /
  `re` are modelled as lists of Unicode code points (`List Nat`); strings
  only compared or concatenated stay `String`.
* Side effects are made explicit: `time.sleep d` becomes an element of a
  delay trace, `Path.mkdir` an element of a created-directory trace,
  `img.save` an element of a save trace, and raster-library mutations an
  element of an operation trace.
* Python truthiness of optional values (`if output_path:`) is modelled by
  explicit `pyTruthy*` functions; `None` is `Option.none`.
* Python float values carried as opaque payloads (effect strengths,
  rotation angles) are modelled over `ℚ`.  Float arithmetic whose
  integer result feeds control flow or a claimed value — the resize
  dimension computation — is outside the embedding: it is a parameter
  (`fdim`), instantiated with the exact truncation `truncMulDiv` only
  at dyadic inputs where the IEEE double evaluation is exact.
* Raised exceptions are the `Except.error` branch; returned strings
  (including the `Error:`-prefixed user-facing ones) are `Except.ok`.
-/

deriving instance DecidableEq for Except

namespace GeminiMCP

/-- Python truthiness of an optional string: `None` and `""` are falsy. -/
def pyTruthyStr (s : Option String) : Bool :=
  match s with
  | none => false
  | some s => !(s == "")

/-- Python truthiness of an optional integer: `None` and `0` are falsy. -/
def pyTruthyInt (i : Option Int) : Bool :=
  match i with
  | none => false
  | some v => !(v == 0)

/-- `leadsWith pat l`: `pat` is an initial segment of `l`. -/
def leadsWith : List Char → List Char → Bool
  | [], _ => true
  | _ :: _, [] => false
  | a :: as, b :: bs => a == b && leadsWith as bs

/-- Python `pat in hay` on strings: `pat` occurs as a contiguous
substring of `hay`. -/
def strContains (hay pat : String) : Bool :=
  (List.range (hay.data.length + 1)).any fun i => leadsWith pat.data (hay.data.drop i)

/-- Python `f"{xs}"` for a list of strings: `repr`-style rendering
`['a', 'b']` (only used inside an opaque error message). -/
def listRepr (xs : List String) : String :=
  "[" ++ String.intercalate ", " (xs.map (fun s => "\x27" ++ s ++ "\x27")) ++ "]"

/-! ### utils.py — slugify

`slugify` is modelled on lists of Unicode code points.  The
`unicodedata.normalize("NFKD", ·)` step calls into the Unicode tables of
the Python runtime (an external collaborator), so the whole pipeline is
parametrised over that normalisation map `nfkd`; every theorem below holds
for an arbitrary `nfkd`, hence in particular for the real NFKD map.
The concrete code points used in counterexamples are NFKD fixed points,
where `nfkd = id` is exact. -/

/-- Code point of an ASCII character matched by Python `\w` after the
pipeline's ASCII filter: `[a-zA-Z0-9_]`. -/
def pyIsWordAscii (n : Nat) : Bool :=
  (97 ≤ n && n ≤ 122) || (65 ≤ n && n ≤ 90) || (48 ≤ n && n ≤ 57) || n == 95

/-- Code point below 128 matched by Python `\s`:
space, `\t`, `\n`, `\v`, `\f`, `\r` and the separator controls 28–31. -/
def pyIsSpaceAscii (n : Nat) : Bool :=
  n == 32 || n == 9 || n == 10 || n == 11 || n == 12 || n == 13 ||
    n == 28 || n == 29 || n == 30 || n == 31

/-- `str.lower` restricted to ASCII input (the pipeline lowercases after
the ASCII filter, where Python's Unicode lowercasing is plain ASCII
lowercasing): map `A`–`Z` to `a`–`z`. -/
def pyLowerAscii (n : Nat) : Nat :=
  if 65 ≤ n && n ≤ 90 then n + 32 else n

/-- Collapse consecutive hyphens (code point 45) into one; together with
mapping every `[-\s]` character to `-` this implements
`re.sub(r"[-\s]+", "-", text)`, which replaces each maximal run of
hyphen/whitespace characters by a single hyphen. -/
def squashDashes : List Nat → List Nat
  | [] => []
  | c :: rest =>
    let r := squashDashes rest
    if c == 45 then
      match r with
      | 45 :: _ => r
      | _ => c :: r
    else c :: r

/-- `str.strip("-")`: drop leading and trailing hyphens. -/
def stripDashes (l : List Nat) : List Nat :=
  ((l.dropWhile (· == 45)).reverse.dropWhile (· == 45)).reverse

/-- `utils.slugify` (utils.py lines 31–39) over code points:
NFKD-normalize, drop non-ASCII, lowercase,
`re.sub(r"[^\w\s-]", "")`, `re.sub(r"[-\s]+", "-")`, `strip("-")`,
truncate to `max_length`. -/
def slugify (nfkd : List Nat → List Nat) (text : List Nat)
    (max_length : Nat := 50) : List Nat :=
  let t1 := (nfkd text).filter (fun n => n < 128)
  let t2 := t1.map pyLowerAscii
  let t3 := t2.filter (fun n => pyIsWordAscii n || pyIsSpaceAscii n || n == 45)
  let t4 := t3.map (fun n => if pyIsSpaceAscii n || n == 45 then 45 else n)
  let t5 := stripDashes (squashDashes t4)
  t5.take max_length

/-- Decode a list of code points (all < 0xD800 in our uses) back to a
`String`, for embedding slugs into file names. -/
def cpToString (l : List Nat) : String :=
  String.mk (l.map Char.ofNat)

/-- `slugify` at `String` type. -/
def slugifyStr (nfkd : List Nat → List Nat) (s : String) : String :=
  cpToString (slugify nfkd (s.data.map Char.toNat))

/-! ### utils.py — validators -/

/-- `utils.validate_aspect_ratio` (utils.py lines 94–100). -/
def validate_aspect_ratio (aspect_ratio : String) : String :=
  let valid_ratios := ["1:1", "2:3", "3:2", "3:4", "4:3", "4:5", "5:4",
    "9:16", "16:9", "21:9"]
  if aspect_ratio ∉ valid_ratios then "1:1" else aspect_ratio

/-- Python `str.upper` restricted to the ASCII mapping (the resolution
allow-list and every code point whose Python uppercase lands in it are
ASCII, so this agrees with the code on all inputs relevant to list
membership). -/
def pyUpper (s : String) : String :=
  String.mk (s.data.map Char.toUpper)

/-- `utils.validate_resolution` (utils.py lines 103–110):
uppercase, then check membership. -/
def validate_resolution (resolution : String) : String :=
  let valid_resolutions := ["1K", "2K", "4K"]
  let resolution := pyUpper resolution
  if resolution ∉ valid_resolutions then "1K" else resolution

/-- `utils.validate_model` (utils.py lines 113–119). -/
def validate_model (model : String) : String :=
  let valid_models := ["gemini-2.5-flash-image", "gemini-3-pro-image-preview"]
  if model ∉ valid_models then "gemini-2.5-flash-image" else model

/-! ### utils.py — output paths

Filesystem effects are explicit: every function that may call
`Path.mkdir(parents=True, exist_ok=True)` returns, next to its value, the
list of directories it ensured exist.  `pathlib.Path.parent` is an
external-library function and is passed in as a parameter `parent`. -/

/-- `utils.get_output_dir` (utils.py lines 24–28): read
`DEFAULT_OUTPUT_DIR` (modelled as `env`), default `./output`, create it.
Returns the directory and the mkdir trace. -/
def get_output_dir (env : Option String) : String × List String :=
  let output_dir := env.getD "./output"
  (output_dir, [output_dir])

/-- `utils.generate_filename` (utils.py lines 42–46); the
`datetime.now().strftime(...)` value is the parameter `timestamp`. -/
def generate_filename (nfkd : List Nat → List Nat) (timestamp : String)
    (prompt : String) (extension : String := "png") : String :=
  let slug := slugifyStr nfkd prompt
  slug ++ "_" ++ timestamp ++ "." ++ extension

/-- `utils.get_output_path` (utils.py lines 49–58).  Note the Python
truthiness test `if output_path:`: an empty string falls through to the
generated filename.  Returns the path and the mkdir trace. -/
def get_output_path (nfkd : List Nat → List Nat) (parent : String → String)
    (env : Option String) (timestamp : String) (prompt : String)
    (output_path : Option String := none) (extension : String := "png") :
    String × List String :=
  if pyTruthyStr output_path then
    let path := output_path.getD ""
    (path, [parent path])
  else
    let (output_dir, made) := get_output_dir env
    let filename := generate_filename nfkd timestamp prompt extension
    (output_dir ++ "/" ++ filename, made)

/-! ### gemini_tools.py — retry wrapper

`_retry_api_call` (gemini_tools.py lines 33–44).  The wrapped operation is
modelled as `op : Nat → Except E A`, giving the outcome of attempt number
`attempt` (0-based, as in `range(MAX_RETRIES)`).  `time.sleep` becomes the
returned delay trace.  `raise last_error` with no failed attempt yet
(only reachable when the attempt bound is 0) raises `None`, hence the
error payload `Option E`. -/

/-- The `for attempt in range(maxAttempts)` loop of `_retry_api_call`,
with `remaining = maxAttempts - attempt` iterations left. -/
def retryLoop {E A : Type} (op : Nat → Except E A) (baseDelay maxAttempts : Nat) :
    Nat → Nat → Option E → Except (Option E) A × List Nat
  | _, 0, last_error => (.error last_error, [])
  | attempt, remaining + 1, _ =>
    match op attempt with
    | .ok a => (.ok a, [])
    | .error e =>
      let delays := if attempt < maxAttempts - 1 then [baseDelay * (attempt + 1)] else []
      let (r, rest) := retryLoop op baseDelay maxAttempts (attempt + 1) remaining (some e)
      (r, delays ++ rest)

/-- `gemini_tools._retry_api_call`, generalised over the module constants
`MAX_RETRIES` / `RETRY_DELAY`: returns the result (or the propagated last
error) together with the trace of sleep durations. -/
def retry_api_call {E A : Type} (op : Nat → Except E A)
    (maxAttempts baseDelay : Nat) : Except (Option E) A × List Nat :=
  retryLoop op baseDelay maxAttempts 0 maxAttempts none

/-- `MAX_RETRIES` (gemini_tools.py line 21). -/
def MAX_RETRIES : Nat := 3

/-- `RETRY_DELAY` (gemini_tools.py line 22). -/
def RETRY_DELAY : Nat := 2

/-! ### gemini_tools.py — response scanning and the generation operations

A backend response is a list of parts; a part carries an optional text
and optional inline image bytes (`google.genai` response parts).  The
identical `for part in response.parts:` loop of `generate_image`
(lines 94–102), `edit_image` (lines 159–167) and
`generate_with_references` (lines 243–251) is embedded once as
`scanParts`.  Each `elif part.inline_data:` arm calls `get_output_path`
anew; since the wall clock advances between calls, the path resolver is
passed as `resolve : Nat → String × List String`, indexed by how many
images were saved before the call. -/

/-- One part of a backend response. -/
structure Part where
  text : Option String := none
  inline_data : Option (List Nat) := none
deriving BEq, DecidableEq

/-- Loop state of the response scan: the last captured text, the save
trace `(path, bytes)`, the mkdir trace, the `image_saved` flag and the
last `final_path`. -/
structure ScanState where
  result_text : String := ""
  image_saved : Bool := false
  final_path : Option String := none
  saves : List (String × List Nat) := []
  mkdirs : List String := []

/-- One iteration of the response loop: `if part.text:` keeps the text
(overwriting any earlier one), `elif part.inline_data:` resolves a path
and saves the image there. -/
def scanStep (resolve : Nat → String × List String) (st : ScanState)
    (part : Part) : ScanState :=
  if pyTruthyStr part.text then
    { st with result_text := part.text.getD "" }
  else
    match part.inline_data with
    | some data =>
      let path := (resolve st.saves.length).1
      let made := (resolve st.saves.length).2
      { st with
          final_path := some path
          saves := st.saves ++ [(path, data)]
          image_saved := true
          mkdirs := st.mkdirs ++ made }
    | none => st

/-- The whole `for part in response.parts:` loop. -/
def scanParts (resolve : Nat → String × List String) (parts : List Part) :
    ScanState :=
  parts.foldl (scanStep resolve) {}

/-- `gemini_tools.get_client` (lines 25–30): raise `ValueError` when the
`GEMINI_API_KEY` environment variable is unset or empty. -/
inductive PyExc (E : Type) where
  | valueError (msg : String)
  | raised (e : Option E)
deriving BEq, DecidableEq

/-- Result of a generation operation: the returned string plus the trace
of saved files `(path, bytes)`. -/
structure GenResult where
  message : String
  saves : List (String × List Nat) := []
deriving BEq, DecidableEq

/-- Build the final message of the generation operations
(`generate_image` lines 104–111 and its twins). -/
def genMessage (noImageMsg savedPrefix : String) (st : ScanState) : String :=
  if !st.image_saved then
    noImageMsg ++ (if st.result_text == "" then "No response" else st.result_text)
  else
    let result := savedPrefix ++ (st.final_path.getD "") -- `{final_path}`
    if st.result_text == "" then result
    else result ++ "\n\nModel notes: " ++ st.result_text

/-- `gemini_tools.generate_image` (lines 47–111).  `api_key` models the
`GEMINI_API_KEY` environment variable, `op` the outcome of each
`client.models.generate_content` attempt, `ts i` the wall clock at the
`i`-th image save. -/
def generate_image (nfkd : List Nat → List Nat) (parent : String → String)
    (env api_key : Option String) (ts : Nat → String)
    (op : Nat → Except String (List Part))
    (prompt : String) (model : String := "gemini-2.5-flash-image")
    (aspect_ratio : String := "1:1") (resolution : String := "1K")
    (output_path : Option String := none) :
    Except (PyExc String) GenResult :=
  let model := validate_model model
  let _aspect_ratio := validate_aspect_ratio aspect_ratio
  let _resolution := validate_resolution resolution
  if !pyTruthyStr api_key then
    .error (.valueError "GEMINI_API_KEY environment variable is not set")
  else
    match retry_api_call op MAX_RETRIES RETRY_DELAY with
    | (.error e, _) => .error (.raised e)
    | (.ok parts, _) =>
      let resolve := fun i => get_output_path nfkd parent env (ts i) prompt output_path
      let st := scanParts resolve parts
      let _ := model
      .ok { message := genMessage "No image was generated. Model response: "
              "Image saved to: " st
            saves := st.saves }

/-- `gemini_tools.edit_image` (lines 114–176).  `fileExists` models
`Path(...).exists()`.  Note the edited-image path is resolved from the
prompt prefixed with `edited_` (line 163). -/
def edit_image (nfkd : List Nat → List Nat) (parent : String → String)
    (env api_key : Option String) (ts : Nat → String)
    (fileExists : String → Bool)
    (op : Nat → Except String (List Part))
    (image_path : String) (prompt : String)
    (model : String := "gemini-2.5-flash-image")
    (output_path : Option String := none) :
    Except (PyExc String) GenResult :=
  let _model := validate_model model
  if !fileExists image_path then
    .ok { message := s!"Error: Image file not found: {image_path}" }
  else if !pyTruthyStr api_key then
    .error (.valueError "GEMINI_API_KEY environment variable is not set")
  else
    match retry_api_call op MAX_RETRIES RETRY_DELAY with
    | (.error e, _) => .error (.raised e)
    | (.ok parts, _) =>
      let resolve := fun i =>
        get_output_path nfkd parent env (ts i) ("edited_" ++ prompt) output_path
      let st := scanParts resolve parts
      .ok { message := genMessage "No edited image was generated. Model response: "
              "Edited image saved to: " st
            saves := st.saves }

/-- `gemini_tools.generate_with_references` (lines 179–260): validate the
enums, enforce the reference-image limit (max 14 when the validated model
name contains `3-pro`, else 3), check the reference files exist, then
proceed exactly as `generate_image`. -/
def generate_with_references (nfkd : List Nat → List Nat)
    (parent : String → String) (env api_key : Option String)
    (ts : Nat → String) (fileExists : String → Bool)
    (op : Nat → Except String (List Part))
    (prompt : String) (reference_images : List String)
    (model : String := "gemini-2.5-flash-image")
    (aspect_ratio : String := "1:1") (resolution : String := "1K")
    (output_path : Option String := none) :
    Except (PyExc String) GenResult :=
  let model := validate_model model
  let _aspect_ratio := validate_aspect_ratio aspect_ratio
  let _resolution := validate_resolution resolution
  let max_refs := if strContains model "3-pro" then 14 else 3
  if reference_images.length > max_refs then
    .ok { message := "Error: Maximum " ++ toString max_refs ++
      " reference images allowed for " ++ model }
  else
    let missing := reference_images.filter (fun p => !fileExists p)
    if !missing.isEmpty then
      .ok { message := s!"Error: Reference images not found: {listRepr missing}" }
    else if !pyTruthyStr api_key then
      .error (.valueError "GEMINI_API_KEY environment variable is not set")
    else
      match retry_api_call op MAX_RETRIES RETRY_DELAY with
      | (.error e, _) => .error (.raised e)
      | (.ok parts, _) =>
        let resolve := fun i => get_output_path nfkd parent env (ts i) prompt output_path
        let st := scanParts resolve parts
        .ok { message := genMessage "No image was generated. Model response: "
                "Image saved to: " st
              saves := st.saves }

/-! ### imagemagick_tools.py

The Wand image handle is modelled as a trace of the mutation calls issued
on it; `img.save(filename=...)` appends the path to a save trace.  The
original image dimensions read off the opened handle are the parameters
`imgW`/`imgH`, its container format the parameter `inputFormat`. -/

/-- `pathlib.Path(s).suffix[1:]`: file-name extension without the dot,
`""` when the name has none (modelled on the whole string; the paths used
in the theorems have no dots outside the file name). -/
def fileExt (s : String) : String :=
  if s.data.contains '.' then
    String.mk ((s.data.reverse.takeWhile (fun c => !(c == '.'))).reverse)
  else ""

/-- Modelled from the spec: the raster-library collaborator (§6
"synchronous open-mutate-save API ... persisted to a path") selects the
container format of a saved file from the save path's file-name
extension, keeping the handle's current format when the path has none.
This is the library behaviour the `# PNG for transparency` path choice in
`rotate_image` relies on. -/
def savedFormat (inputFormat : String) (path : String) : String :=
  let ext := fileExt path
  if ext == "" then inputFormat else ext

/-- Modelled from the spec: which container formats of §4.5's convert
list `{png, jpg, jpeg, webp, gif, bmp, tiff}` support an alpha
(transparency) channel — `png`, `webp`, `gif` and `tiff` do; `jpg`,
`jpeg` and `bmp` do not. -/
def formatSupportsTransparency (format : String) : Bool :=
  format ∈ ["png", "webp", "gif", "tiff", "tif"]

/-- Python `f"{v}"` for an optional integer (`None` prints as `None`). -/
def pyOptIntStr (v : Option Int) : String :=
  match v with
  | none => "None"
  | some v => toString v

/-- Result of `resize_image`: the returned string, the `(w, h)` actually
passed to `img.resize` when it was reached, and the save trace. -/
structure ResizeResult where
  message : String
  resized : Option (Int × Int) := none
  saves : List String := []
deriving BEq, DecidableEq

/-- Exact truncating evaluation of `int(a * (b / c))`: the rational
`a·b/c` truncated toward zero.  The program evaluates that expression in
IEEE double arithmetic, which agrees with this exact value precisely
when the intermediate doubles `b / c` and `a * (b / c)` are exact — as
at every dyadic instance used in the theorems below (for example
`200 / 400 = 0.5` and `100 · 0.5 = 50.0`, or `7 / 8 = 0.875` and
`3 · 0.875 = 2.625`); at other inputs the two can differ (a 49×49
source at width 1 gives `49.0 · (1.0 / 49.0) = 0.999…` and `int` 0,
while the exact value is 1). -/
def truncMulDiv (a : Nat) (b : Int) (c : Nat) : Int :=
  ((a : Int) * b).tdiv (c : Int)

/-- `imagemagick_tools.resize_image` (lines 11–53).
`int(img.height * (width / img.width))` is evaluated by the runtime in
IEEE double arithmetic; like the Unicode tables behind `slugify`, that
arithmetic is outside the shallow embedding, so the value of
`int(a * (b / c))` is the parameter `fdim a b c`, instantiated in
concrete theorems with `truncMulDiv` only at inputs where the double
evaluation is exact.  The `if width and not height:` /
`width or img.width` tests use Python integer truthiness (`0` is
falsy), modelled by `pyTruthyInt`. -/
def resize_image (nfkd : List Nat → List Nat) (parent : String → String)
    (env : Option String) (ts : String) (fileExists : String → Bool)
    (fdim : Nat → Int → Nat → Int)
    (image_path : String) (imgW imgH : Nat)
    (width height : Option Int := none) (maintain_aspect : Bool := true)
    (output_path : Option String := none) : ResizeResult :=
  if !fileExists image_path then
    { message := s!"Error: Image file not found: {image_path}" }
  else if width == none && height == none then
    { message := "Error: At least one of width or height must be specified" }
  else
    let original_size := s!"{imgW}x{imgH}"
    let (width, height) :=
      if maintain_aspect then
        if pyTruthyInt width && !pyTruthyInt height then
          (width, some (fdim imgH (width.getD 0) imgW))
        else if pyTruthyInt height && !pyTruthyInt width then
          (some (fdim imgW (height.getD 0) imgH), height)
        else (width, height)
      else (width, height)
    let rw := if pyTruthyInt width then width.getD 0 else (imgW : Int)
    let rh := if pyTruthyInt height then height.getD 0 else (imgH : Int)
    let prompt := "resized_" ++ pyOptIntStr width ++ "x" ++ pyOptIntStr height
    let (final_path, _made) :=
      get_output_path nfkd parent env ts prompt output_path (fileExt image_path)
    { message := "Image resized from " ++ original_size ++ " to " ++
        pyOptIntStr width ++ "x" ++ pyOptIntStr height ++ ". Saved to: " ++ final_path
      resized := some (rw, rh)
      saves := [final_path] }

/-- Result of `rotate_image`: the returned string, the rotation issued on
the handle `(degrees, background)`, the resolved path and the save trace. -/
structure RotateResult where
  message : String
  rotations : List (ℚ × String) := []
  final_path : Option String := none
  saves : List String := []
deriving BEq, DecidableEq

/-- `imagemagick_tools.rotate_image` (lines 111–141): rotate with the
given background colour and save at
`get_output_path(f"rotated_{degrees}deg", output_path, "png")`. -/
def rotate_image (nfkd : List Nat → List Nat) (parent : String → String)
    (env : Option String) (ts : String) (fileExists : String → Bool)
    (image_path : String) (degrees : ℚ)
    (background_color : String := "transparent")
    (output_path : Option String := none) : RotateResult :=
  if !fileExists image_path then
    { message := s!"Error: Image file not found: {image_path}" }
  else
    let (final_path, _made) :=
      get_output_path nfkd parent env ts (s!"rotated_{degrees}deg") output_path "png"
    { message := s!"Image rotated {degrees} degrees. Saved to: {final_path}"
      rotations := [(degrees, background_color)]
      final_path := some final_path
      saves := [final_path] }

/-- A mutation issued on the Wand image handle by `apply_effects`. -/
inductive ImgOp where
  | gaussian_blur (sigma : ℚ)
  | sharpen (radius sigma : ℚ)
  | modulate_brightness (brightness : ℚ)
  | contrast_stretch (black_point white_point : ℚ)
  | modulate_saturation (saturation : ℚ)
  | transform_colorspace (colorspace : String)
  | sepia_tone (threshold : ℚ)
  | negate
deriving BEq, DecidableEq

/-- Result of `apply_effects`: the returned string, the trace of
mutations issued on the handle, and the save trace. -/
structure EffectsResult where
  message : String
  ops : List ImgOp := []
  saves : List String := []
deriving BEq, DecidableEq

/-- One `if x is not None:` arm of `apply_effects`: issue the mutation
and append its entry to `effects_applied`. -/
def addOpt (acc : List ImgOp × List String) (o : Option ℚ) (f : ℚ → ImgOp)
    (name : ℚ → String) : List ImgOp × List String :=
  match o with
  | some v => (acc.1 ++ [f v], acc.2 ++ [name v])
  | none => acc

/-- One boolean arm (`if grayscale:` ...) of `apply_effects`. -/
def addFlag (acc : List ImgOp × List String) (b : Bool) (op : ImgOp)
    (name : String) : List ImgOp × List String :=
  if b then (acc.1 ++ [op], acc.2 ++ [name]) else acc

/-- `imagemagick_tools.apply_effects` (lines 219–297).  Float parameters
are modelled over `ℚ`; the numeric renderings inside `effects_applied`
entries use `toString` on `ℚ` where Python renders floats (the entries
only feed the emptiness test, the file-name stub and the final message). -/
def apply_effects (nfkd : List Nat → List Nat) (parent : String → String)
    (env : Option String) (ts : String) (fileExists : String → Bool)
    (image_path : String)
    (blur sharpen brightness contrast saturation : Option ℚ := none)
    (grayscale : Bool := false) (sepia : Bool := false)
    (negative : Bool := false)
    (output_path : Option String := none) : EffectsResult :=
  if !fileExists image_path then
    { message := s!"Error: Image file not found: {image_path}" }
  else
    let acc : List ImgOp × List String := ([], [])
    let acc := addOpt acc blur (fun b => .gaussian_blur b) (fun b => s!"blur({b})")
    let acc := addOpt acc sharpen (fun s => .sharpen 0 s) (fun s => s!"sharpen({s})")
    let acc := addOpt acc brightness (fun b => .modulate_brightness (100 + b))
      (fun b => s!"brightness({b})")
    let acc := addOpt acc contrast
      (fun c => .contrast_stretch (max 0 (-c / 100)) (max 0 (c / 100)))
      (fun c => s!"contrast({c})")
    let acc := addOpt acc saturation (fun s => .modulate_saturation (100 + s))
      (fun s => s!"saturation({s})")
    let acc := addFlag acc grayscale (.transform_colorspace "gray") "grayscale"
    let acc := addFlag acc sepia (.sepia_tone (4 / 5)) "sepia"
    let acc := addFlag acc negative .negate "negative"
    let effects_applied := acc.2
    if effects_applied.isEmpty then
      { message := "Error: No effects specified", ops := acc.1 }
    else
      let effect_name := String.intercalate "_" (effects_applied.take 3)
      let (final_path, _made) := get_output_path nfkd parent env ts
        ("effects_" ++ effect_name) output_path (fileExt image_path)
      { message := "Applied effects: " ++ String.intercalate ", " effects_applied ++
          ". Saved to: " ++ final_path
        ops := acc.1
        saves := [final_path] }

/-! ## Theorems -/

/-! ### Helper lemmas on the slug pipeline -/

/-- The collapsed list satisfies `all p` when the input does. -/
theorem all_squashDashes {p : Nat → Bool} :
    ∀ {l : List Nat}, l.all p = true → (squashDashes l).all p = true := by
  intro l
  induction l with
  | nil => intro _; rfl
  | cons c rest ih =>
    intro h
    rw [List.all_cons, Bool.and_eq_true] at h
    have hr := ih h.2
    rw [squashDashes]
    split
    · split
      · assumption
      · rw [List.all_cons, Bool.and_eq_true]; exact ⟨h.1, hr⟩
    · rw [List.all_cons, Bool.and_eq_true]; exact ⟨h.1, hr⟩

/-- `dropWhile` preserves `all p`. -/
theorem all_dropWhile {p q : Nat → Bool} :
    ∀ {l : List Nat}, l.all p = true → (l.dropWhile q).all p = true := by
  intro l
  induction l with
  | nil => intro _; rfl
  | cons c rest ih =>
    intro h
    rw [List.all_cons, Bool.and_eq_true] at h
    rw [List.dropWhile]
    split
    · exact ih h.2
    · rw [List.all_cons, Bool.and_eq_true]; exact ⟨h.1, h.2⟩

/-- `stripDashes` preserves `all p`. -/
theorem all_stripDashes {p : Nat → Bool} {l : List Nat} (h : l.all p = true) :
    (stripDashes l).all p = true := by
  unfold stripDashes
  rw [List.all_reverse]
  exact all_dropWhile (by rw [List.all_reverse]; exact all_dropWhile h)

/-- `take` preserves `all p`. -/
theorem all_take {p : Nat → Bool} :
    ∀ {l : List Nat} (n : Nat), l.all p = true → (l.take n).all p = true := by
  intro l
  induction l with
  | nil => intro n _; simp
  | cons c rest ih =>
    intro n h
    rw [List.all_cons, Bool.and_eq_true] at h
    cases n with
    | zero => rfl
    | succ n =>
      rw [List.take_succ_cons, List.all_cons, Bool.and_eq_true]
      exact ⟨h.1, ih n h.2⟩

/-! ### C2 — character set of `slugify` output -/

/-- Character class of the spec's regex `^[a-z0-9-]{0,50}$`
(spec-side definition, for comparison with the code). -/
def slugCharClaimed (n : Nat) : Bool :=
  (97 ≤ n && n ≤ 122) || (48 ≤ n && n ≤ 57) || n == 45

/-- Character class the code actually guarantees: the claimed class plus
the underscore (code point 95), which Python's `\w` keeps. -/
def slugCharAmended (n : Nat) : Bool :=
  slugCharClaimed n || n == 95

/-- Per-character core of the pipeline: an ASCII code point that is
lowercased and survives the `[^\w\s-]` filter is, after the `[-\s]+ → -`
replacement, a lowercase letter, a digit, an underscore or a hyphen. -/
theorem slug_char_core : ∀ n, n < 128 →
    (pyIsWordAscii (pyLowerAscii n) || pyIsSpaceAscii (pyLowerAscii n) ||
      pyLowerAscii n == 45) = true →
    slugCharAmended (if pyIsSpaceAscii (pyLowerAscii n) || pyLowerAscii n == 45
      then 45 else pyLowerAscii n) = true := by
  decide

/-- C2 counterexample: on the input `"_"` (code point 95, an NFKD fixed
point, so `nfkd = id` is exact there) `slugify` returns `"_"`, which
contains a character outside `[a-z0-9-]`. -/
theorem claim_C2_counterexample :
    slugify id [95] = [95] ∧ (slugify id [95]).all slugCharClaimed = false := by
  decide

/-- C2 (amended: the output character set also contains the underscore,
which Python's `\w` class keeps): for every normalisation map and every
Unicode input, every character of `slugify`'s output is a lowercase ASCII
letter, an ASCII digit, a hyphen or an underscore, and the output length
is at most 50. -/
theorem claim_C2 (nfkd : List Nat → List Nat) (text : List Nat) :
    (slugify nfkd text).all slugCharAmended = true ∧
    (slugify nfkd text).length ≤ 50 := by
  constructor
  · show (List.take 50 _).all _ = true
    apply all_take
    apply all_stripDashes
    apply all_squashDashes
    rw [List.all_eq_true]
    intro x hx
    rcases List.mem_map.1 hx with ⟨y, hy, rfl⟩
    rcases List.mem_filter.1 hy with ⟨hy2, hyQ⟩
    rcases List.mem_map.1 hy2 with ⟨z, hz, rfl⟩
    have hz128 : z < 128 := by simpa using (List.mem_filter.1 hz).2
    exact slug_char_core z hz128 hyQ
  · show (List.take 50 _).length ≤ 50
    rw [List.length_take]
    exact min_le_left _ _

/-! ### C3 — enum validators -/

/-- C3: each enum validator is a total function (it never raises); a
non-member of the allow-list (for resolutions: a value whose uppercasing
is a non-member) is replaced by the documented default
(`gemini-2.5-flash-image`, `1:1`, `1K` respectively), and a member is
returned unchanged; model membership is case-sensitive while resolution
membership is decided on (and returns) the uppercased value. -/
theorem claim_C3 (x : String) :
    (x ∉ ["gemini-2.5-flash-image", "gemini-3-pro-image-preview"] →
      validate_model x = "gemini-2.5-flash-image") ∧
    (x ∈ ["gemini-2.5-flash-image", "gemini-3-pro-image-preview"] →
      validate_model x = x) ∧
    (x ∉ ["1:1", "2:3", "3:2", "3:4", "4:3", "4:5", "5:4", "9:16", "16:9", "21:9"] →
      validate_aspect_ratio x = "1:1") ∧
    (x ∈ ["1:1", "2:3", "3:2", "3:4", "4:3", "4:5", "5:4", "9:16", "16:9", "21:9"] →
      validate_aspect_ratio x = x) ∧
    (pyUpper x ∉ ["1K", "2K", "4K"] → validate_resolution x = "1K") ∧
    (pyUpper x ∈ ["1K", "2K", "4K"] → validate_resolution x = pyUpper x) ∧
    (x ∈ ["1K", "2K", "4K"] → validate_resolution x = x) := by
  refine ⟨fun h => ?_, fun h => ?_, fun h => ?_, fun h => ?_, fun h => ?_,
    fun h => ?_, fun h => ?_⟩
  · simp [validate_model, h]
  · simp [validate_model, h]
  · simp [validate_aspect_ratio, h]
  · simp [validate_aspect_ratio, h]
  · simp [validate_resolution, h]
  · simp [validate_resolution, h]
  · simp only [List.mem_cons, List.not_mem_nil, or_false] at h
    rcases h with rfl | rfl | rfl <;> decide

/-- C3 witness: concrete validator runs, one per conjunct. -/
theorem claim_C3_witness :
    validate_model "gpt-4o" = "gemini-2.5-flash-image" ∧
    validate_model "gemini-3-pro-image-preview" = "gemini-3-pro-image-preview" ∧
    validate_aspect_ratio "7:5" = "1:1" ∧
    validate_aspect_ratio "16:9" = "16:9" ∧
    validate_resolution "8K" = "1K" ∧
    validate_resolution "2k" = "2K" ∧
    validate_resolution "4K" = "4K" :=
  ⟨(claim_C3 "gpt-4o").1 (by decide),
    (claim_C3 "gemini-3-pro-image-preview").2.1 (by decide),
    (claim_C3 "7:5").2.2.1 (by decide),
    (claim_C3 "16:9").2.2.2.1 (by decide),
    (claim_C3 "8K").2.2.2.2.1 (by decide),
    (claim_C3 "2k").2.2.2.2.2.1 (by decide),
    (claim_C3 "4K").2.2.2.2.2.2 (by decide)⟩

/-! ### C4 / C9 — output-path resolver -/

/-- C4 counterexample: for the supplied explicit path `""` the resolver
does not return `""`; the Python truthiness test `if output_path:` sends
the empty string to the generated slug-and-timestamp filename. -/
theorem claim_C4_counterexample :
    (get_output_path id id none "20250101_000000" "x" (some "") "png").1 =
      "./output/x_20250101_000000.png" ∧
    (get_output_path id id none "20250101_000000" "x" (some "") "png").1 ≠ "" := by
  constructor
  · rfl
  · decide

/-- C4 (amended: restricted to nonempty explicit paths — the empty
string is falsy in Python and falls through to the generated filename,
see C9): for every seed text, extension and nonempty explicit path `p`,
the resolver returns `p` itself and ensures exactly `p`'s parent
directory exists. -/
theorem claim_C4 (nfkd : List Nat → List Nat) (parent : String → String)
    (env : Option String) (ts prompt p ext : String) (h : p ≠ "") :
    get_output_path nfkd parent env ts prompt (some p) ext = (p, [parent p]) := by
  have hb : (p == "") = false := by simpa using h
  simp [get_output_path, pyTruthyStr, hb]

/-- C4 witness: a concrete nonempty explicit path is returned verbatim,
with its parent directory ensured. -/
theorem claim_C4_witness :
    get_output_path id id none "ts" "seed" (some "/tmp/out.png") "jpg" =
      ("/tmp/out.png", ["/tmp/out.png"]) :=
  claim_C4 id id none "ts" "seed" "/tmp/out.png" "jpg" (by decide)

/-- C9: an empty explicit output path is treated as absent — the call
behaves exactly like the no-path call and resolves to the
slug-and-timestamp filename under the configured output directory. -/
theorem claim_C9 (nfkd : List Nat → List Nat) (parent : String → String)
    (env : Option String) (ts prompt ext : String) :
    get_output_path nfkd parent env ts prompt (some "") ext =
      get_output_path nfkd parent env ts prompt none ext ∧
    get_output_path nfkd parent env ts prompt (some "") ext =
      (env.getD "./output" ++ "/" ++ generate_filename nfkd ts prompt ext,
        [env.getD "./output"]) := by
  constructor
  · rfl
  · simp [get_output_path, pyTruthyStr, get_output_dir]

/-! ### C1 — retry wrapper -/

/-- Unfolding the retry loop when the first `j` attempts from `attempt`
fail and attempt `attempt + j` succeeds. -/
theorem retryLoop_ok {E A : Type} (op : Nat → Except E A) (err : Nat → E)
    (v : A) (base total : Nat) :
    ∀ (j attempt remaining : Nat) (last : Option E),
      attempt + remaining = total → j < remaining →
      (∀ i, i < j → op (attempt + i) = .error (err (attempt + i))) →
      op (attempt + j) = .ok v →
      retryLoop op base total attempt remaining last =
        (.ok v, (List.range j).map (fun i => base * (attempt + i + 1))) := by
  intro j
  induction j with
  | zero =>
    intro attempt remaining last htot hlt _ hok
    obtain ⟨r, rfl⟩ : ∃ r, remaining = r + 1 := ⟨remaining - 1, by omega⟩
    rw [show attempt + 0 = attempt from rfl] at hok
    rw [retryLoop, hok]
    rfl
  | succ j ih =>
    intro attempt remaining last htot hlt hfail hok
    obtain ⟨r, rfl⟩ : ∃ r, remaining = r + 1 := ⟨remaining - 1, by omega⟩
    have h0 : op attempt = .error (err attempt) := by
      have := hfail 0 (by omega)
      simpa using this
    have hdel : attempt < total - 1 := by omega
    have hrec := ih (attempt + 1) r (some (err attempt)) (by omega) (by omega)
      (fun i hi => by
        have := hfail (i + 1) (by omega)
        rw [show attempt + (i + 1) = attempt + 1 + i from by omega] at this
        exact this)
      (by rw [show attempt + 1 + j = attempt + (j + 1) from by omega]; exact hok)
    rw [retryLoop, h0]
    simp only [hrec, if_pos hdel]
    rw [List.range_succ_eq_map, List.map_cons, List.map_map]
    have hmap : ((fun i => base * (attempt + i + 1)) ∘ Nat.succ) =
        (fun i => base * (attempt + 1 + i + 1)) := by
      funext i
      simp only [Function.comp, Nat.succ_eq_add_one]
      ring
    rw [hmap]
    norm_num

/-- Unfolding the retry loop when every remaining attempt fails. -/
theorem retryLoop_allfail {E A : Type} (op : Nat → Except E A) (err : Nat → E)
    (base total : Nat) :
    ∀ (remaining attempt : Nat) (last : Option E),
      attempt + remaining = total → 0 < remaining →
      (∀ i, attempt ≤ i → i < total → op i = .error (err i)) →
      retryLoop op base total attempt remaining last =
        ((.error (some (err (total - 1))) : Except (Option E) A),
          (List.range (remaining - 1)).map (fun i => base * (attempt + i + 1))) := by
  intro remaining
  induction remaining with
  | zero => intro attempt last _ h; omega
  | succ r ih =>
    intro attempt last htot _ hfail
    have h0 : op attempt = .error (err attempt) := hfail attempt le_rfl (by omega)
    cases r with
    | zero =>
      have hnd : ¬ attempt < total - 1 := by omega
      have hat : attempt = total - 1 := by omega
      rw [retryLoop, h0]
      simp only [if_neg hnd, retryLoop, hat]
      simp
    | succ r' =>
      have hdel : attempt < total - 1 := by omega
      have hrec := ih (attempt + 1) (some (err attempt)) (by omega) (by omega)
        (fun i hle hlt => hfail i (by omega) hlt)
      rw [retryLoop, h0]
      simp only [hrec, if_pos hdel]
      simp only [Nat.add_sub_cancel]
      rw [List.range_succ_eq_map, List.map_cons, List.map_map]
      have hmap : ((fun i => base * (attempt + i + 1)) ∘ Nat.succ) =
          (fun i => base * (attempt + 1 + i + 1)) := by
        funext i
        simp only [Function.comp, Nat.succ_eq_add_one]
        ring
      rw [hmap]
      norm_num

/-- C1: for every operation and `k < maxAttempts`, if the first `k`
attempts fail (any failure counts — failures are not classified) and
attempt `k` succeeds, `_retry_api_call` returns the success value after
exactly the delays `baseDelay·1, …, baseDelay·k` (the first attempt has
no delay); if every attempt fails, it sleeps `maxAttempts − 1` times and
re-raises the failure of the last attempt. -/
theorem claim_C1 {E A : Type} (op : Nat → Except E A) (err : Nat → E) (v : A)
    (maxAttempts baseDelay k : Nat) :
    (k < maxAttempts →
      (∀ i, i < k → op i = .error (err i)) → op k = .ok v →
      retry_api_call op maxAttempts baseDelay =
        (.ok v, (List.range k).map (fun i => baseDelay * (i + 1)))) ∧
    (0 < maxAttempts →
      (∀ i, i < maxAttempts → op i = .error (err i)) →
      retry_api_call op maxAttempts baseDelay =
        (.error (some (err (maxAttempts - 1))),
          (List.range (maxAttempts - 1)).map (fun i => baseDelay * (i + 1)))) := by
  constructor
  · intro hk hfail hok
    have := retryLoop_ok op err v baseDelay maxAttempts k 0 maxAttempts none
      (by omega) hk (fun i hi => by simpa using hfail i hi) (by simpa using hok)
    rw [retry_api_call, this]
    refine congrArg _ (congrArg₂ _ ?_ rfl)
    funext i
    ring_nf
  · intro hpos hfail
    have := retryLoop_allfail op err baseDelay maxAttempts maxAttempts 0 none
      (by omega) hpos (fun i _ hlt => hfail i hlt)
    rw [retry_api_call, this]
    refine congrArg _ (congrArg₂ _ ?_ rfl)
    funext i
    ring_nf

/-- C1 witness: with the module constants `MAX_RETRIES = 3`,
`RETRY_DELAY = 2`: two failures then a success give delays `[2, 4]` and
the success value; three failures give delays `[2, 4]` and re-raise the
third error. -/
theorem claim_C1_witness :
    retry_api_call (fun i => if i < 2 then Except.error i else Except.ok 42)
      MAX_RETRIES RETRY_DELAY = (.ok 42, [2, 4]) ∧
    retry_api_call (fun i => (Except.error i : Except Nat Nat))
      MAX_RETRIES RETRY_DELAY = (.error (some 2), [2, 4]) := by
  constructor
  · have := (claim_C1 (fun i => if i < 2 then Except.error i else Except.ok 42)
      id 42 3 2 2).1 (by decide) (by decide) (by decide)
    exact this.trans (by decide)
  · have := (claim_C1 (fun i => (Except.error i : Except Nat Nat))
      id 42 3 2 2).2 (by decide) (by decide)
    exact this.trans (by decide)

/-! ### C5 — reference-image limit -/

/-- C5: after model validation, `generate_with_references` allows at most
14 reference images when the validated model name contains `3-pro` and at
most 3 otherwise.  Over the limit it returns (never raises, and saves
nothing) the `Error:` string citing the maximum — for any backend
behaviour and any file system.  At or under the limit (with all reference
files present and the credential set) the call proceeds past validation
to the backend: a backend failure propagates out of the retry wrapper,
untouched by the reference-count check. -/
theorem claim_C5 (nfkd : List Nat → List Nat) (parent : String → String)
    (env api_key : Option String) (ts : Nat → String)
    (fileExists : String → Bool) (op : Nat → Except String (List Part))
    (prompt : String) (reference_images : List String)
    (model aspect_ratio resolution : String) (output_path : Option String) :
    (reference_images.length >
        (if strContains (validate_model model) "3-pro" then 14 else 3) →
      generate_with_references nfkd parent env api_key ts fileExists op prompt
          reference_images model aspect_ratio resolution output_path =
        .ok { message := "Error: Maximum " ++
                  toString (if strContains (validate_model model) "3-pro" then 14 else 3) ++
                  " reference images allowed for " ++ validate_model model,
              saves := [] }) ∧
    (reference_images.length ≤
        (if strContains (validate_model model) "3-pro" then 14 else 3) →
      (∀ p ∈ reference_images, fileExists p = true) →
      pyTruthyStr api_key = true →
      ∀ e ds, retry_api_call op MAX_RETRIES RETRY_DELAY = (.error e, ds) →
      generate_with_references nfkd parent env api_key ts fileExists op prompt
          reference_images model aspect_ratio resolution output_path =
        .error (.raised e)) := by
  constructor
  · intro hgt
    rw [generate_with_references]
    simp only [if_pos hgt]
  · intro hle hex hkey e ds hretry
    rw [generate_with_references]
    have hmiss : reference_images.filter (fun p => !fileExists p) = [] := by
      rw [List.filter_eq_nil_iff]
      intro p hp
      simp [hex p hp]
    rw [if_neg (by omega)]
    simp only [hmiss, List.isEmpty_nil, Bool.not_true, Bool.false_eq_true,
      if_false, hkey, Bool.not_true, Bool.false_eq_true, if_false, hretry]

/-- C5 witness: 15 references with the `3-pro` model give the max-14
error string; 14 references with that model and a failing backend reach
the backend and re-raise its error; 4 references with the flash model
give the max-3 error string. -/
theorem claim_C5_witness :
    generate_with_references id id none (some "key") (fun _ => "T")
        (fun _ => true) (fun _ => Except.error "boom") "p"
        (List.replicate 15 "r.png") "gemini-3-pro-image-preview" "1:1" "1K" none =
      .ok { message :=
              "Error: Maximum 14 reference images allowed for gemini-3-pro-image-preview",
            saves := [] } ∧
    generate_with_references id id none (some "key") (fun _ => "T")
        (fun _ => true) (fun _ => Except.error "boom") "p"
        (List.replicate 14 "r.png") "gemini-3-pro-image-preview" "1:1" "1K" none =
      .error (.raised (some "boom")) ∧
    generate_with_references id id none (some "key") (fun _ => "T")
        (fun _ => true) (fun _ => Except.error "boom") "p"
        (List.replicate 4 "r.png") "gemini-2.5-flash-image" "1:1" "1K" none =
      .ok { message :=
              "Error: Maximum 3 reference images allowed for gemini-2.5-flash-image",
            saves := [] } := by
  refine ⟨?_, ?_, ?_⟩
  · have := (claim_C5 id id none (some "key") (fun _ => "T") (fun _ => true)
      (fun _ => Except.error "boom") "p" (List.replicate 15 "r.png")
      "gemini-3-pro-image-preview" "1:1" "1K" none).1 (by decide)
    exact this.trans (by decide)
  · exact (claim_C5 id id none (some "key") (fun _ => "T") (fun _ => true)
      (fun _ => Except.error "boom") "p" (List.replicate 14 "r.png")
      "gemini-3-pro-image-preview" "1:1" "1K" none).2 (by decide)
      (by decide) (by decide) (some "boom") [2, 4] (by decide)
  · have := (claim_C5 id id none (some "key") (fun _ => "T") (fun _ => true)
      (fun _ => Except.error "boom") "p" (List.replicate 4 "r.png")
      "gemini-2.5-flash-image" "1:1" "1K" none).1 (by decide)
    exact this.trans (by decide)

/-! ### C6 — resize dimension computation -/

/-- Rounding to the nearest integer pixel (spec-side definition of the
claim's rounding mode, for comparison with the code's `int(...)`). -/
def specRoundNearest (q : ℚ) : ℤ :=
  round q

/-- C6 counterexample: an 8×3 source resized to width 7 with
`maintain_aspect=True`.  The intermediate doubles at this input
(`7/8 = 0.875` and `3·0.875 = 2.625`) are dyadic and exactly
representable, so the runtime's evaluation of `int(3 * (7/8))` equals
the exact truncation `truncMulDiv 3 7 8 = 2` used to instantiate
`fdim`; the claimed nearest integer is 3. -/
theorem claim_C6_counterexample :
    (resize_image id id none "ts" (fun _ => true) truncMulDiv "in.png" 8 3
        (some 7) none true none).resized = some (7, 2) ∧
    specRoundNearest ((3 : ℚ) * ((7 : ℚ) / (8 : ℚ))) = 3 ∧
    ((2 : ℤ) ≠ 3) := by
  refine ⟨by decide, ?_, by decide⟩
  rw [specRoundNearest]
  norm_num [round_eq]

/-- C6 (amended: the missing dimension is `int(original · given/other)`
as evaluated by the program's floating-point arithmetic — a truncation
toward zero of the computed product, not a rounding to nearest; on the
claim's own example that evaluation is exact, so a 400×100 source at
width 200 yields height 50): for every evaluation `fdim` of
`int(a · (b/c))`, with exactly one nonzero dimension supplied and
`maintain_aspect=True` the other resize argument is exactly the
evaluated value, in the right position (provided it is nonzero — a
computed 0 is falsy in Python and falls back to the original
dimension); with neither dimension supplied the operation returns the
error string; and on the 400×100/width-200 instance, where the doubles
are exact, the result is 200×50. -/
theorem claim_C6 (nfkd : List Nat → List Nat) (parent : String → String)
    (env : Option String) (ts : String) (fileExists : String → Bool)
    (fdim : Nat → Int → Nat → Int)
    (image_path : String) (imgW imgH : Nat) (w h : Int)
    (maintain : Bool) (out : Option String)
    (hex : fileExists image_path = true) :
    (w ≠ 0 → fdim imgH w imgW ≠ 0 →
      (resize_image nfkd parent env ts fileExists fdim image_path imgW imgH
          (some w) none true out).resized =
        some (w, fdim imgH w imgW)) ∧
    (h ≠ 0 → fdim imgW h imgH ≠ 0 →
      (resize_image nfkd parent env ts fileExists fdim image_path imgW imgH
          none (some h) true out).resized =
        some (fdim imgW h imgH, h)) ∧
    ((resize_image nfkd parent env ts fileExists fdim image_path imgW imgH
        none none maintain out).message =
      "Error: At least one of width or height must be specified") ∧
    ((resize_image nfkd parent env ts fileExists truncMulDiv image_path 400 100
        (some 200) none true out).resized = some (200, 50)) := by
  refine ⟨fun hw htr => ?_, fun hh htr => ?_, ?_, ?_⟩
  · have hwb : (w == 0) = false := by simpa using hw
    have htb : (fdim imgH w imgW == 0) = false := by simpa using htr
    simp [resize_image, hex, pyTruthyInt, hwb, htb]
  · have hhb : (h == 0) = false := by simpa using hh
    have htb : (fdim imgW h imgH == 0) = false := by simpa using htr
    simp [resize_image, hex, pyTruthyInt, hhb, htb]
  · simp [resize_image, hex]
  · have h50 : truncMulDiv 100 200 400 = 50 := by decide
    have hwb : ((200 : Int) == 0) = false := by decide
    have htb : (truncMulDiv 100 200 400 == 0) = false := by decide
    simp [resize_image, hex, pyTruthyInt, hwb, htb, h50]

/-- C6 witness: the claim's own example — a 400×100 source with
`width=200, maintain_aspect=True` resizes to 200×50 (doubles exact
there); symmetrically `height=50` gives 200×50; no dimensions give the
error string. -/
theorem claim_C6_witness :
    (resize_image id id none "ts" (fun _ => true) truncMulDiv "photo.png" 400 100
        (some 200) none true none).resized = some (200, 50) ∧
    (resize_image id id none "ts" (fun _ => true) truncMulDiv "photo.png" 400 100
        none (some 50) true none).resized = some (200, 50) ∧
    (resize_image id id none "ts" (fun _ => true) truncMulDiv "photo.png" 400 100
        none none true none).message =
      "Error: At least one of width or height must be specified" := by
  refine ⟨?_, ?_, ?_⟩
  · exact (claim_C6 id id none "ts" (fun _ => true) truncMulDiv "photo.png" 400 100
      200 50 true none (by decide)).2.2.2
  · have := (claim_C6 id id none "ts" (fun _ => true) truncMulDiv "photo.png" 400 100
      200 50 true none (by decide)).2.1 (by decide) (by decide)
    exact this.trans (by decide)
  · exact (claim_C6 id id none "ts" (fun _ => true) truncMulDiv "photo.png" 400 100
      200 50 true none (by decide)).2.2.1

/-! ### C7 — effects order, contrast remap, empty-selection error -/

/-- Mutation trace of one optional-effect arm. -/
theorem addOpt_fst (acc : List ImgOp × List String) (o : Option ℚ)
    (f : ℚ → ImgOp) (name : ℚ → String) :
    (addOpt acc o f name).1 = acc.1 ++ (o.map f).toList := by
  cases o <;> simp [addOpt]

/-- Mutation trace of one boolean-effect arm. -/
theorem addFlag_fst (acc : List ImgOp × List String) (b : Bool) (op : ImgOp)
    (name : String) :
    (addFlag acc b op name).1 = acc.1 ++ (if b then [op] else []) := by
  cases b <;> simp [addFlag]

/-- C7: on an existing input image, the issued raster-library mutations
are exactly the selected effects in the fixed order blur, sharpen,
brightness, contrast, saturation, grayscale, sepia, negative, with
contrast remapped to stretch points `max 0 (−c/100)` / `max 0 (c/100)`;
with no effect selected the operation returns
`Error: No effects specified` and writes no file. -/
theorem claim_C7 (nfkd : List Nat → List Nat) (parent : String → String)
    (env : Option String) (ts : String) (fileExists : String → Bool)
    (image_path : String) (blur sharpen brightness contrast saturation : Option ℚ)
    (grayscale sepia negative : Bool) (out : Option String)
    (hex : fileExists image_path = true) :
    ((apply_effects nfkd parent env ts fileExists image_path blur sharpen
        brightness contrast saturation grayscale sepia negative out).ops =
      (blur.map ImgOp.gaussian_blur).toList ++
      (sharpen.map (ImgOp.sharpen 0)).toList ++
      (brightness.map (fun b => ImgOp.modulate_brightness (100 + b))).toList ++
      (contrast.map (fun c =>
        ImgOp.contrast_stretch (max 0 (-c / 100)) (max 0 (c / 100)))).toList ++
      (saturation.map (fun s => ImgOp.modulate_saturation (100 + s))).toList ++
      (if grayscale then [ImgOp.transform_colorspace "gray"] else []) ++
      (if sepia then [ImgOp.sepia_tone (4 / 5)] else []) ++
      (if negative then [ImgOp.negate] else [])) ∧
    (blur = none → sharpen = none → brightness = none → contrast = none →
      saturation = none → grayscale = false → sepia = false → negative = false →
      (apply_effects nfkd parent env ts fileExists image_path blur sharpen
          brightness contrast saturation grayscale sepia negative out).message =
        "Error: No effects specified" ∧
      (apply_effects nfkd parent env ts fileExists image_path blur sharpen
          brightness contrast saturation grayscale sepia negative out).saves = []) := by
  constructor
  · rw [apply_effects]
    simp only [hex, Bool.not_true, Bool.false_eq_true, if_false]
    split <;>
      simp [addOpt_fst, addFlag_fst, List.append_assoc]
  · intro h1 h2 h3 h4 h5 h6 h7 h8
    subst h1 h2 h3 h4 h5 h6 h7 h8
    rw [apply_effects]
    simp [hex, addOpt, addFlag]

/-- C7 witness: contrast 30 plus negative yield exactly the two
mutations in order with the remapped stretch points; selecting nothing
yields the error string and an empty save trace. -/
theorem claim_C7_witness :
    (apply_effects id id none "ts" (fun _ => true) "in.png"
        none none none (some 30) none false false true none).ops =
      [ImgOp.contrast_stretch (max 0 (-(30 : ℚ) / 100)) (max 0 ((30 : ℚ) / 100)),
        ImgOp.negate] ∧
    (apply_effects id id none "ts" (fun _ => true) "in.png"
        none none none none none false false false none).message =
      "Error: No effects specified" ∧
    (apply_effects id id none "ts" (fun _ => true) "in.png"
        none none none none none false false false none).saves = [] := by
  refine ⟨?_, ?_, ?_⟩
  · have := (claim_C7 id id none "ts" (fun _ => true) "in.png"
      none none none (some 30) none false false true none rfl).1
    exact this.trans (by simp)
  · exact ((claim_C7 id id none "ts" (fun _ => true) "in.png"
      none none none none none false false false none rfl).2
      rfl rfl rfl rfl rfl rfl rfl rfl).1
  · exact ((claim_C7 id id none "ts" (fun _ => true) "in.png"
      none none none none none false false false none rfl).2
      rfl rfl rfl rfl rfl rfl rfl rfl).2

/-! ### C8 — rotate output format -/

/-- A path ending in `.png` has file extension `png`. -/
theorem fileExt_concat_png (x : String) : fileExt (x ++ ".png") = "png" := by
  rw [fileExt]
  have hdata : (x ++ ".png").data = x.data ++ ['.', 'p', 'n', 'g'] := by
    rw [String.data_append]
  rw [hdata]
  have hcontains : (x.data ++ ['.', 'p', 'n', 'g']).contains '.' = true := by
    simp
  rw [if_pos hcontains]
  rw [List.reverse_append]
  simp [List.takeWhile]

/-- Reassociation: a string built as `a ++ (b ++ "." ++ "png")` ends in
`.png`. -/
theorem path_ends_png (a b : String) : a ++ (b ++ "." ++ "png") = (a ++ b) ++ ".png" := by
  rw [show (".png" : String) = "." ++ "png" from by decide]
  simp [String.append_assoc]

/-- C8 counterexample: a rotation request with the explicit output path
`out.jpg` saves exactly to `out.jpg` (an explicit path is returned
verbatim by the resolver, its extension untouched), so the raster
library writes a JPEG — a format without transparency — although the
input was a GIF. -/
theorem claim_C8_counterexample :
    (rotate_image id id none "ts" (fun _ => true) "in.gif" 45 "transparent"
        (some "out.jpg")).saves = ["out.jpg"] ∧
    savedFormat "gif" "out.jpg" = "jpg" ∧
    formatSupportsTransparency "jpg" = false := by
  refine ⟨by decide, by decide, by decide⟩

/-- C8 (amended: restricted to requests without a truthy explicit output
path — an explicit path is used verbatim, so its extension dictates the
saved format): every file the rotate operation saves under the default
naming has extension `png`, a transparency-capable format, regardless of
the input image's format. -/
theorem claim_C8 (nfkd : List Nat → List Nat) (parent : String → String)
    (env : Option String) (ts : String) (fileExists : String → Bool)
    (image_path : String) (degrees : ℚ) (bg inputFormat : String)
    (out : Option String)
    (hex : fileExists image_path = true) (hout : pyTruthyStr out = false) :
    ∀ p ∈ (rotate_image nfkd parent env ts fileExists image_path degrees bg
        out).saves,
      savedFormat inputFormat p = "png" ∧
      formatSupportsTransparency (savedFormat inputFormat p) = true := by
  intro p hp
  rw [rotate_image] at hp
  simp only [hex, Bool.not_true, Bool.false_eq_true, if_false] at hp
  rw [get_output_path] at hp
  simp only [hout, Bool.false_eq_true, if_false, get_output_dir,
    generate_filename, List.mem_singleton] at hp
  subst hp
  rw [path_ends_png]
  simp only [savedFormat, fileExt_concat_png]
  constructor
  · rfl
  · rfl

/-- C8 witness: a concrete rotation of a GIF without an explicit output
path — every saved file is in a transparency-capable format. -/
theorem claim_C8_witness :
    (rotate_image id id none "20250101_000000" (fun _ => true) "in.gif" 45
        "transparent" none).saves.all
      (fun p => formatSupportsTransparency (savedFormat "gif" p)) = true := by
  rw [List.all_eq_true]
  intro p hp
  exact (claim_C8 id id none "20250101_000000" (fun _ => true) "in.gif" 45
    "transparent" "gif" none rfl rfl p hp).2

/-! ### C10 — response scanning -/

/-- Bytes of the response parts the scan loop saves as images: parts
whose `text` is not truthy and whose `inline_data` is present
(spec-side description of the `elif part.inline_data:` arm). -/
def imageDatas (parts : List Part) : List (List Nat) :=
  parts.filterMap (fun p => if pyTruthyStr p.text then none else p.inline_data)

/-- The text the scan loop ends up keeping: the text of the last part
whose `text` is truthy (nonempty), if any. -/
def lastTruthyText (parts : List Part) : Option String :=
  (parts.filterMap (fun p => if pyTruthyStr p.text then p.text else none)).getLast?

/-- The text kept by the loop is nonempty. -/
theorem lastTruthyText_ne_empty {parts : List Part} {t : String}
    (h : lastTruthyText parts = some t) : (t == "") = false := by
  rw [lastTruthyText] at h
  have hmem : t ∈ parts.filterMap
      (fun p => if pyTruthyStr p.text = true then p.text else none) := by
    obtain ⟨hne, heq⟩ := List.mem_getLast?_eq_getLast (Option.mem_def.2 h)
    rw [heq]
    exact List.getLast_mem hne
  rcases List.mem_filterMap.1 hmem with ⟨p, _, hfp⟩
  by_cases htr : pyTruthyStr p.text = true
  · rw [if_pos htr] at hfp
    rw [hfp] at htr
    simpa [pyTruthyStr] using htr
  · rw [if_neg htr] at hfp
    exact absurd hfp (by simp)

/-- Prepending an element shifts the default of the last element. -/
theorem getLast?_getD_cons (a d : String) :
    ∀ (l : List String), ((a :: l).getLast?).getD d = (l.getLast?).getD a := by
  intro l
  induction l generalizing a with
  | nil => rfl
  | cons b l ih =>
    rw [List.getLast?_cons_cons]
    calc ((b :: l).getLast?).getD d = (l.getLast?).getD b := ih b
    _ = ((b :: l).getLast?).getD a := (ih b).symm

/-- A truthy-text part contributes nothing to the saved images. -/
theorem imageDatas_cons_text {p : Part} (parts : List Part)
    (h : pyTruthyStr p.text = true) :
    imageDatas (p :: parts) = imageDatas parts := by
  simp [imageDatas, List.filterMap_cons, h]

/-- A part with neither truthy text nor inline data is skipped. -/
theorem imageDatas_cons_skip {p : Part} (parts : List Part)
    (h1 : ¬ pyTruthyStr p.text = true) (h2 : p.inline_data = none) :
    imageDatas (p :: parts) = imageDatas parts := by
  simp [imageDatas, List.filterMap_cons, h1, h2]

/-- An image part contributes its bytes. -/
theorem imageDatas_cons_image {p : Part} (parts : List Part) {d : List Nat}
    (h1 : ¬ pyTruthyStr p.text = true) (h2 : p.inline_data = some d) :
    imageDatas (p :: parts) = d :: imageDatas parts := by
  simp [imageDatas, List.filterMap_cons, h1, h2]

/-- A part without truthy text leaves the kept text unchanged. -/
theorem lastTruthyText_cons_nottext {p : Part} (parts : List Part)
    (h1 : ¬ pyTruthyStr p.text = true) :
    lastTruthyText (p :: parts) = lastTruthyText parts := by
  simp [lastTruthyText, List.filterMap_cons, h1]

/-- A truthy-text part contributes its text in front. -/
theorem lastTruthyText_cons_text {p : Part} (parts : List Part) {s : String}
    (h : pyTruthyStr p.text = true) (hs : p.text = some s) :
    lastTruthyText (p :: parts) =
      (s :: parts.filterMap
        (fun p => if pyTruthyStr p.text = true then p.text else none)).getLast? := by
  have h2 : pyTruthyStr (some s) = true := hs ▸ h
  simp [lastTruthyText, List.filterMap_cons, hs, h2]

/-- Full characterisation of the response-scan loop, for an arbitrary
starting state: the kept text is the last truthy text (defaulting to the
initial one), the save trace appends one entry per image part at the
index-resolved path, `final_path` points at the last saved path, and
`image_saved` records whether any image part occurred. -/
theorem scanParts_go (resolve : Nat → String × List String) :
    ∀ (parts : List Part) (st : ScanState),
      (parts.foldl (scanStep resolve) st).result_text =
        ((lastTruthyText parts).getD st.result_text) ∧
      (parts.foldl (scanStep resolve) st).saves =
        st.saves ++ ((imageDatas parts).enumFrom st.saves.length).map
          (fun x => ((resolve x.1).1, x.2)) ∧
      (parts.foldl (scanStep resolve) st).final_path =
        (if (imageDatas parts).isEmpty then st.final_path
         else some ((resolve (st.saves.length + (imageDatas parts).length - 1)).1)) ∧
      (parts.foldl (scanStep resolve) st).image_saved =
        (st.image_saved || !(imageDatas parts).isEmpty) := by
  intro parts
  induction parts with
  | nil =>
    intro st
    simp [lastTruthyText, imageDatas]
  | cons part parts ih =>
    intro st
    rw [List.foldl_cons]
    by_cases htr : pyTruthyStr part.text = true
    · -- text arm: the loop keeps this part's (nonempty) text
      obtain ⟨s, hs⟩ : ∃ s, part.text = some s := by
        rcases h : part.text with _ | s
        · rw [h] at htr
          simp [pyTruthyStr] at htr
        · exact ⟨s, rfl⟩
      have hstep : scanStep resolve st part = { st with result_text := s } := by
        rw [scanStep, if_pos htr, hs]
        rfl
      rw [hstep, imageDatas_cons_text parts htr]
      refine ⟨?_, (ih _).2.1, (ih _).2.2.1, (ih _).2.2.2⟩
      rw [(ih _).1, lastTruthyText_cons_text parts htr hs, getLast?_getD_cons]
      rfl
    · rcases hdata : part.inline_data with _ | d
      · -- neither arm applies: state unchanged
        have hstep : scanStep resolve st part = st := by
          rw [scanStep, if_neg htr, hdata]
        rw [hstep, imageDatas_cons_skip parts htr hdata,
          lastTruthyText_cons_nottext parts htr]
        exact ih st
      · -- image arm: resolve a path and save
        have hstep : scanStep resolve st part =
            { st with
                final_path := some ((resolve st.saves.length).1)
                saves := st.saves ++ [((resolve st.saves.length).1, d)]
                image_saved := true
                mkdirs := st.mkdirs ++ (resolve st.saves.length).2 } := by
          rw [scanStep, if_neg htr, hdata]
        rw [hstep, imageDatas_cons_image parts htr hdata,
          lastTruthyText_cons_nottext parts htr]
        refine ⟨(ih _).1, ?_, ?_, ?_⟩
        · rw [(ih _).2.1]
          simp [List.enumFrom, List.append_assoc]
        · rw [(ih _).2.2.1]
          rcases himgs : imageDatas parts with _ | ⟨d2, rest⟩
          · simp
          · simp only [List.isEmpty_cons, Bool.false_eq_true, if_false,
              List.length_cons, List.length_append, List.length_nil]
            refine congrArg _ (congrArg _ (congrArg _ ?_))
            omega
        · rw [(ih _).2.2.2]
          simp

/-- Assembled result of the shared post-response code of the three
generation operations, when the response has at least one image part and
a last truthy text `t`. -/
theorem genResult_of_scan (resolve : Nat → String × List String)
    (parts : List Part) (t : String) (noImageMsg savedPrefix : String)
    (himg : (imageDatas parts).isEmpty = false)
    (htxt : lastTruthyText parts = some t) :
    GenResult.mk (genMessage noImageMsg savedPrefix (scanParts resolve parts))
      (scanParts resolve parts).saves =
    { message := savedPrefix ++ (resolve ((imageDatas parts).length - 1)).1 ++
          "\n\nModel notes: " ++ t,
      saves := ((imageDatas parts).enumFrom 0).map
          (fun x => ((resolve x.1).1, x.2)) } := by
  obtain ⟨h1, h2, h3, h4⟩ := scanParts_go resolve parts {}
  rw [scanParts] at *
  have hts : (List.foldl (scanStep resolve) {} parts).result_text = t := by
    rw [h1, htxt]
    rfl
  have htne : (t == "") = false := lastTruthyText_ne_empty htxt
  have hsaved : (List.foldl (scanStep resolve) {} parts).image_saved = true := by
    rw [h4, himg]
    rfl
  have hfp : (List.foldl (scanStep resolve) {} parts).final_path =
      some ((resolve ((imageDatas parts).length - 1)).1) := by
    rw [h3, himg]
    simp
  have hsv : (List.foldl (scanStep resolve) {} parts).saves =
      ((imageDatas parts).enumFrom 0).map (fun x => ((resolve x.1).1, x.2)) := by
    rw [h2]
    rfl
  rw [genMessage, hts, hsaved, hfp, hsv]
  simp [htne, String.append_assoc]

/-- C10 (amended: the notes kept are those of the last part with a
truthy, i.e. nonempty, text — an empty-text part does not overwrite
them): in `generate_image`, and identically in `edit_image` and
`generate_with_references`, when the retried backend call returns parts
containing at least one image part, every image part (each part without
truthy text whose inline data is present) is decoded and saved at its
own freshly resolved output path, the kept notes are the last truthy
text, and the success message reports only the last saved path. -/
theorem claim_C10 (nfkd : List Nat → List Nat) (parent : String → String)
    (env api_key : Option String) (ts : Nat → String)
    (fileExists : String → Bool) (op : Nat → Except String (List Part))
    (prompt image_path : String) (reference_images : List String)
    (model aspect_ratio resolution : String) (out : Option String)
    (parts : List Part) (ds : List Nat) (t : String)
    (hkey : pyTruthyStr api_key = true)
    (hretry : retry_api_call op MAX_RETRIES RETRY_DELAY = (.ok parts, ds))
    (himg : imageDatas parts ≠ [])
    (htxt : lastTruthyText parts = some t)
    (hfile : fileExists image_path = true)
    (href : reference_images.length ≤
      (if strContains (validate_model model) "3-pro" then 14 else 3))
    (hrefex : ∀ p ∈ reference_images, fileExists p = true) :
    (generate_image nfkd parent env api_key ts op prompt model aspect_ratio
        resolution out =
      .ok { message := "Image saved to: " ++
                (get_output_path nfkd parent env (ts ((imageDatas parts).length - 1))
                  prompt out).1 ++ "\n\nModel notes: " ++ t,
            saves := ((imageDatas parts).enumFrom 0).map (fun x =>
                ((get_output_path nfkd parent env (ts x.1) prompt out).1, x.2)) }) ∧
    (edit_image nfkd parent env api_key ts fileExists op image_path prompt
        model out =
      .ok { message := "Edited image saved to: " ++
                (get_output_path nfkd parent env (ts ((imageDatas parts).length - 1))
                  ("edited_" ++ prompt) out).1 ++ "\n\nModel notes: " ++ t,
            saves := ((imageDatas parts).enumFrom 0).map (fun x =>
                ((get_output_path nfkd parent env (ts x.1) ("edited_" ++ prompt) out).1,
                  x.2)) }) ∧
    (generate_with_references nfkd parent env api_key ts fileExists op prompt
        reference_images model aspect_ratio resolution out =
      .ok { message := "Image saved to: " ++
                (get_output_path nfkd parent env (ts ((imageDatas parts).length - 1))
                  prompt out).1 ++ "\n\nModel notes: " ++ t,
            saves := ((imageDatas parts).enumFrom 0).map (fun x =>
                ((get_output_path nfkd parent env (ts x.1) prompt out).1, x.2)) }) := by
  have himg' : (imageDatas parts).isEmpty = false := by
    simpa using himg
  refine ⟨?_, ?_, ?_⟩
  · rw [generate_image]
    simp only [hkey, Bool.not_true, Bool.false_eq_true, if_false, hretry]
    exact congrArg Except.ok
      (genResult_of_scan _ parts t "No image was generated. Model response: "
        "Image saved to: " himg' htxt)
  · rw [edit_image]
    simp only [hkey, hfile, Bool.not_true, Bool.false_eq_true, if_false, hretry]
    exact congrArg Except.ok
      (genResult_of_scan _ parts t "No edited image was generated. Model response: "
        "Edited image saved to: " himg' htxt)
  · rw [generate_with_references]
    rw [if_neg (by omega)]
    have hmiss : reference_images.filter (fun p => !fileExists p) = [] := by
      rw [List.filter_eq_nil_iff]
      intro p hp
      simp [hrefex p hp]
    simp only [hmiss, List.isEmpty_nil, Bool.not_true, Bool.false_eq_true,
      if_false, hkey, hretry]
    exact congrArg Except.ok
      (genResult_of_scan _ parts t "No image was generated. Model response: "
        "Image saved to: " himg' htxt)

/-- C10 counterexample: a response whose parts are a text part `"a"`, a
text part `""` and an image part.  The last text part of the response
carries `""`, yet the reported notes are `"a"`: the `if part.text:`
truthiness test skips empty text, so it is not the last text part that
is kept but the last one with nonempty text. -/
theorem claim_C10_counterexample :
    generate_image id id none (some "key") (fun _ => "T")
        (fun _ => Except.ok [{ text := some "a" }, { text := some "" },
          { inline_data := some [7] }])
        "p" "gemini-2.5-flash-image" "1:1" "1K" none =
      Except.ok { message := "Image saved to: ./output/p_T.png\n\nModel notes: a",
                  saves := [("./output/p_T.png", [7])] } ∧
    (([{ text := some "a" }, { text := some "" },
        { inline_data := some [7] }] : List Part).filterMap Part.text).getLast? =
      some "" ∧
    ("a" : String) ≠ "" := by
  refine ⟨by decide, by decide, by decide⟩

/-- C10 witness: a response with two truthy text parts and two image
parts, run through all three operations with per-save timestamps `T0`,
`T1`: each image is saved at its own path, the notes are the last truthy
text, and the message cites only the last path. -/
theorem claim_C10_witness :
    generate_image id id none (some "key") (fun i => "T" ++ toString i)
        (fun _ => Except.ok [{ text := some "draft" }, { inline_data := some [1] },
          { text := some "note" }, { inline_data := some [2] }])
        "p" "gemini-2.5-flash-image" "1:1" "1K" none =
      Except.ok { message := "Image saved to: ./output/p_T1.png\n\nModel notes: note",
                  saves := [("./output/p_T0.png", [1]),
                    ("./output/p_T1.png", [2])] } ∧
    edit_image id id none (some "key") (fun i => "T" ++ toString i)
        (fun _ => true)
        (fun _ => Except.ok [{ text := some "draft" }, { inline_data := some [1] },
          { text := some "note" }, { inline_data := some [2] }])
        "img.png" "p" "gemini-2.5-flash-image" none =
      Except.ok { message :=
                    "Edited image saved to: ./output/edited_p_T1.png\n\nModel notes: note",
                  saves := [("./output/edited_p_T0.png", [1]),
                    ("./output/edited_p_T1.png", [2])] } ∧
    generate_with_references id id none (some "key") (fun i => "T" ++ toString i)
        (fun _ => true)
        (fun _ => Except.ok [{ text := some "draft" }, { inline_data := some [1] },
          { text := some "note" }, { inline_data := some [2] }])
        "p" ["r.png"] "gemini-2.5-flash-image" "1:1" "1K" none =
      Except.ok { message := "Image saved to: ./output/p_T1.png\n\nModel notes: note",
                  saves := [("./output/p_T0.png", [1]),
                    ("./output/p_T1.png", [2])] } := by
  have h := claim_C10 id id none (some "key") (fun i => "T" ++ toString i)
    (fun _ => true)
    (fun _ => Except.ok [{ text := some "draft" }, { inline_data := some [1] },
      { text := some "note" }, { inline_data := some [2] }])
    "p" "img.png" ["r.png"] "gemini-2.5-flash-image" "1:1" "1K" none
    [{ text := some "draft" }, { inline_data := some [1] },
      { text := some "note" }, { inline_data := some [2] }] [] "note"
    (by decide) (by decide) (by decide) (by decide) (by decide) (by decide)
    (by decide)
  exact ⟨h.1.trans (by decide), h.2.1.trans (by decide), h.2.2.trans (by decide)⟩

end GeminiMCP
